import Mathlib

/-!
Verification of the CyberSentinel phishing-risk classifiers.

This file embeds, in Lean, the two heuristic classifiers of the repository:

* the URL safety checker (`validateUrl` / `analyzeUrl` in
  `src/cybersentinel/src/components/providers.tsx`, lines 116-224), and
* the local email risk classifier (`generateMockAnalysisResult` in
  `src/cybersentinel/src/components/email-dashboard/user-nav.tsx`,
  lines 238-308) together with the fallback policy of `analyzeEmail`
  (lines 189-236).

JavaScript strings are embedded as Lean `String`; `String.prototype.includes`,
`startsWith`, `endsWith` and `toLowerCase` are given explicit executable
definitions below.  The calls to `Math.random()` made by the URL checker are
made explicit as a `RandomEnv` parameter holding the three draws one
evaluation can consume.  The platform `new URL` constructor is modelled by
`parseHostname`, restricted to what the checker uses.
-/

namespace CyberSentinel

/-- `prefixAt pat s` : `pat` is a prefix of the character list `s`. -/
def prefixAt : List Char → List Char → Bool
  | [], _ => true
  | _ :: _, [] => false
  | p :: ps, c :: cs => p == c && prefixAt ps cs

/-- `occursIn pat s` : `pat` occurs as a contiguous sublist of `s`. -/
def occursIn (pat : List Char) : List Char → Bool
  | [] => prefixAt pat []
  | c :: cs => prefixAt pat (c :: cs) || occursIn pat cs

/-- JavaScript `s.includes(pat)`. -/
def sIncludes (s pat : String) : Bool := occursIn pat.data s.data

/-- JavaScript `s.startsWith(pat)`. -/
def jsStartsWith (s pat : String) : Bool := prefixAt pat.data s.data

/-- JavaScript `s.endsWith(pat)`. -/
def jsEndsWith (s pat : String) : Bool := prefixAt pat.data.reverse s.data.reverse

/-- JavaScript `s.toLowerCase()` (ASCII, which covers every string the
heuristics compare against). -/
def jsToLower (s : String) : String := ⟨s.data.map Char.toLower⟩

/-- providers.tsx line 141 / line 119: prefix `https://` when the input has
no explicit http(s) scheme. -/
def normalizeUrl (s : String) : String :=
  if !jsStartsWith s "http://" && !jsStartsWith s "https://" then "https://" ++ s else s

/-- Characters that terminate the host part of an http(s) URL. -/
def hostDelim (c : Char) : Bool := c == '/' || c == '?' || c == '#' || c == ':'

/-- Forbidden host code points (WHATWG URL): a host containing one of these
makes `new URL` throw.  The space is the one that matters for the inputs the
checker sees. -/
def forbiddenHostChar (c : Char) : Bool :=
  c == ' ' || c == '\t' || c == '\n' || c == '\r' ||
  c == '<' || c == '>' || c == '@' || c == '[' || c == ']' ||
  c == '\\' || c == '^' || c == '|' || c == '\"'

/-- Modelled platform behaviour: the WHATWG `new URL(url).hostname` used at
providers.tsx line 124 and line 148, restricted to what the checker needs:
parsing succeeds exactly when the string carries an http(s) scheme followed by
a non-empty host free of forbidden host code points, and then yields that
host. -/
def parseHostname (s : String) : Option String :=
  let rest? : Option String :=
    if jsStartsWith s "https://" then some (s.drop 8)
    else if jsStartsWith s "http://" then some (s.drop 7)
    else none
  match rest? with
  | none => none
  | some rest =>
    let host := rest.data.takeWhile (fun c => !hostDelim c)
    if host.isEmpty || host.any forbiddenHostChar then none
    else some ⟨host⟩

/-- providers.tsx lines 116-129 (`validateUrl`): the empty string is falsy
(`!url`, line 117); otherwise the normalized string must parse. -/
def validateUrl (url : String) : Bool :=
  if url = "" then false
  else (parseHostname (normalizeUrl url)).isSome

/-- providers.tsx lines 150-158: the allow-list. -/
def knownLegitDomains : List String :=
  ["google.com", "amazon.com", "facebook.com", "microsoft.com", "apple.com",
   "github.com", "dropbox.com"]

/-- providers.tsx line 168: exact match or subdomain suffix match. -/
def isLegitDomain (domain : String) : Bool :=
  knownLegitDomains.any (fun d => domain == d || jsEndsWith domain ("." ++ d))

/-- The literal strings matched by the regex at providers.tsx line 160,
`g[o0][o0]gle|amaz[o0]n|faceb[o0][o0]k|paypa[l1]|micr[o0]s[o0]ft|app[l1]e`,
expanded alternative by alternative. -/
def typoVariants : List String :=
  ["google", "go0gle", "g0ogle", "g00gle",
   "amazon", "amaz0n",
   "facebook", "faceb0ok", "facebo0k", "faceb00k",
   "paypal", "paypa1",
   "microsoft", "micr0soft", "micros0ft", "micr0s0ft",
   "apple", "app1e"]

/-- providers.tsx line 160: the brand-impersonation regex test on the domain. -/
def hasTyposquatting (domain : String) : Bool :=
  typoVariants.any (fun v => sIncludes domain v)

/-- providers.tsx lines 161-163. -/
def isKnownPhishingPattern (domain : String) : Bool :=
  sIncludes domain "secure-verify" || sIncludes domain "account-update" ||
  sIncludes domain "login-confirm"

/-- providers.tsx lines 164-166. -/
def hasSuspiciousPath (url : String) : Bool :=
  sIncludes url "/verify" || sIncludes url "/signin" || sIncludes url "/security"

/-- The three verdicts of the URL checker (providers.tsx line 91). -/
inductive UrlStatus
  | safe
  | suspicious
  | malicious
deriving DecidableEq, Repr

/-- providers.tsx line 95. -/
inductive HttpsStatus
  | valid
  | invalid
  | missing
deriving DecidableEq, Repr

/-- The `Math.random()` draws one evaluation of `analyzeUrl` can consume:
`jitter` is `Math.floor(Math.random() * 5)` (line 176), `pathDraw` is
`Math.random() > 0.5` (line 185), `redirects` is
`Math.floor(Math.random() * 3)` (line 204). -/
structure RandomEnv where
  jitter : Fin 5
  pathDraw : Bool
  redirects : Fin 3
deriving DecidableEq, Repr

/-- providers.tsx lines 93-100. -/
structure UrlDetails where
  domainAge : String
  httpsStatus : HttpsStatus
  redirectCount : Nat
  maliciousPatterns : List String
  reputationScore : Nat
  category : String
deriving DecidableEq, Repr

/-- providers.tsx lines 89-102. -/
structure UrlCheckResult where
  url : String
  status : UrlStatus
  confidenceScore : Nat
  details : UrlDetails
  recommendations : List String
deriving DecidableEq, Repr

/-- providers.tsx lines 170-193: the if/else-if cascade assigning status,
confidence score and malicious patterns, starting from the initial
`('safe', 90, [])` of lines 170-172. -/
def urlCascade (url domain : String) (rnd : RandomEnv) : UrlStatus × Nat × List String :=
  if isLegitDomain domain then
    (.safe, 95 + rnd.jitter.val, [])
  else if isKnownPhishingPattern domain then
    (.malicious, 95, ["Known phishing domain pattern"])
  else if hasTyposquatting domain then
    (.malicious, 92, ["Potential typosquatting attack (brand impersonation)"])
  else if hasSuspiciousPath url && rnd.pathDraw then
    (.suspicious, 75, ["Suspicious URL path pattern"])
  else if sIncludes domain "-" || sIncludes domain "secure" || sIncludes domain "login" then
    (.suspicious, 68, ["Domain contains suspicious keywords"])
  else
    (.safe, 90, [])

/-- providers.tsx lines 148-216, for an already normalized URL whose hostname
has been extracted: the cascade (lines 170-193), then the result record
(lines 197-216). -/
def analyzeUrlCore (url host : String) (rnd : RandomEnv) : UrlCheckResult :=
  let sc := urlCascade url (jsToLower host) rnd
  { url := url
    status := sc.1
    confidenceScore := sc.2.1
    details :=
      { domainAge := if sc.1 = .safe then "3+ years" else "< 30 days"
        httpsStatus := if jsStartsWith url "https://" then .valid else .missing
        redirectCount := rnd.redirects.val
        maliciousPatterns := sc.2.2
        reputationScore := if sc.1 = .safe then 85 else if sc.1 = .suspicious then 45 else 15
        category := if sc.1 = .safe then "Business/E-commerce" else "Uncategorized" }
    recommendations :=
      [if sc.1 = .malicious then
        "Do not visit this website. It has been identified as potentially harmful."
       else if sc.1 = .suspicious then
        "Exercise caution when visiting this website. Do not enter sensitive information."
       else
        "This website appears to be safe, but always be cautious when entering sensitive information."] }

/-- Outcome of one submission to the URL checker: a validation error
(providers.tsx lines 132-138, `form.setError`, no result), an analysis error
(the catch at lines 219-220, no result), or a `UrlCheckResult`
(`setCheckResult`, line 218). -/
inductive UrlCheckOutput
  | validationError
  | analysisError
  | result (r : UrlCheckResult)
deriving DecidableEq, Repr

/-- providers.tsx lines 131-224 (`analyzeUrl`): validate, normalize, extract
the hostname, classify. -/
def analyzeUrl (input : String) (rnd : RandomEnv) : UrlCheckOutput :=
  if validateUrl input = false then .validationError
  else
    match parseHostname (normalizeUrl input) with
    | some host => .result (analyzeUrlCore (normalizeUrl input) host rnd)
    | none => .analysisError

/-! ## Email classifier (user-nav.tsx lines 238-308) -/

/-- user-nav.tsx (`RiskLevel` from `@/lib/types`): the email verdicts. -/
inductive RiskLevel
  | safe
  | suspicious
  | phishing
deriving DecidableEq, Repr

/-- user-nav.tsx lines 159-163: the form input. -/
structure FormValues where
  sender : String
  subject : String
  content : String
deriving DecidableEq, Repr

/-- An entry of `suspiciousLinks` (user-nav.tsx line 170). -/
structure SuspiciousLink where
  url : String
  reason : String
deriving DecidableEq, Repr

/-- user-nav.tsx lines 165-172. -/
structure AnalysisResult where
  riskLevel : RiskLevel
  confidence : Nat
  indicators : List String
  analysis : String
  suspiciousLinks : List SuspiciousLink
  recommendedAction : String
deriving DecidableEq, Repr

/-- The mutable locals of `generateMockAnalysisResult`
(user-nav.tsx lines 243-245). -/
structure EState where
  riskLevel : RiskLevel
  indicators : List String
  suspiciousLinks : List SuspiciousLink
deriving DecidableEq, Repr

/-- user-nav.tsx line 250. -/
def urgentWords : List String :=
  ["urgent", "immediately", "alert", "attention", "verify", "suspend", "locked"]

/-- user-nav.tsx line 251. -/
def sensitiveWords : List String :=
  ["password", "credit card", "account", "login", "social security", "bank"]

/-- JavaScript whitespace characters matched by `\s` (ASCII range). -/
def isSpaceChar (c : Char) : Bool :=
  c == ' ' || c == '\t' || c == '\n' || c == '\r' || c == '\x0b' || c == '\x0c'

/-- Whether the regex `https?:\/\/[^\s]+` (user-nav.tsx line 247) matches at
the head of `cs`: an http(s) scheme followed by at least one non-space
character. -/
def urlMatchAt (cs : List Char) : Bool :=
  let n? : Option Nat :=
    if prefixAt "https://".data cs then some 8
    else if prefixAt "http://".data cs then some 7
    else none
  match n? with
  | some n =>
    match cs.drop n with
    | c :: _ => !isSpaceChar c
    | [] => false
  | none => false

/-- Global scan of `content.match(/(https?:\/\/[^\s]+)/g)`: at each position
a match takes the maximal run of non-space characters and the scan resumes
after it; otherwise the scan advances one character.  Fuel equal to the
length of the input suffices because every step consumes at least one
character. -/
def extractUrlsAux : Nat → List Char → List String
  | 0, _ => []
  | _ + 1, [] => []
  | fuel + 1, c :: cs =>
    if urlMatchAt (c :: cs) then
      let u := (c :: cs).takeWhile (fun x => !isSpaceChar x)
      String.mk u :: extractUrlsAux fuel ((c :: cs).drop u.length)
    else
      extractUrlsAux fuel cs

/-- user-nav.tsx lines 247-248: `content.match(urlRegex) || []`. -/
def extractUrls (s : String) : List String := extractUrlsAux s.data.length s.data

/-- user-nav.tsx lines 253-256: the urgency rule (content OR subject). -/
def stepUrgent (subject content : String) (s : EState) : EState :=
  if urgentWords.any (fun w => sIncludes content w || sIncludes subject w) then
    { s with indicators := s.indicators ++ ["Uses urgent language to create pressure"],
             riskLevel := .suspicious }
  else s

/-- user-nav.tsx lines 258-261: the sensitive-information rule (content only). -/
def stepSensitive (content : String) (s : EState) : EState :=
  if sensitiveWords.any (fun w => sIncludes content w) then
    { s with indicators := s.indicators ++ ["Requests sensitive personal information"],
             riskLevel := .suspicious }
  else s

/-- user-nav.tsx lines 263-268: the sender-spoofing rule. -/
def stepSpoof (sender : String) (s : EState) : EState :=
  if (sIncludes sender "paypal" && !jsEndsWith sender "@paypal.com") ||
     (sIncludes sender "amazon" && !jsEndsWith sender "@amazon.com") ||
     (sIncludes sender "apple" && !jsEndsWith sender "@apple.com") then
    { s with indicators := s.indicators ++ ["Sender domain spoofing detected"],
             riskLevel := .phishing }
  else s

/-- user-nav.tsx lines 270-286: the body of `urls.forEach` for one URL. -/
def stepUrl (url : String) (s : EState) : EState :=
  let authReason := "URL contains suspicious keywords related to authentication"
  let typoReason := "Possible typosquatting detected (domain mimics popular brand)"
  let s1 :=
    if sIncludes url "login" || sIncludes url "verify" || sIncludes url "secure" then
      { s with
          suspiciousLinks := s.suspiciousLinks ++ [⟨url, authReason⟩]
          riskLevel := .phishing }
    else s
  if sIncludes url "paypa1" || sIncludes url "arnazon" || sIncludes url "app1e" then
    { s1 with
        suspiciousLinks := s1.suspiciousLinks ++ [⟨url, typoReason⟩]
        riskLevel := .phishing }
  else s1

/-- The whole `urls.forEach` loop. -/
def stepUrls (urls : List String) (s : EState) : EState :=
  urls.foldl (fun st u => stepUrl u st) s

/-- user-nav.tsx lines 288-290: pad the indicators of an under-explained
phishing verdict. -/
def stepGuard (s : EState) : EState :=
  if s.riskLevel = .phishing ∧ s.indicators.length < 2 then
    { s with indicators := s.indicators ++ ["Multiple suspicious elements detected"] }
  else s

/-- The state of the scan just before each rule, lines 243-249 set it up. -/
def initState : EState := ⟨.safe, [], []⟩

def emailState1 (data : FormValues) : EState :=
  stepUrgent (jsToLower data.subject) (jsToLower data.content) initState

def emailState2 (data : FormValues) : EState :=
  stepSensitive (jsToLower data.content) (emailState1 data)

def emailState3 (data : FormValues) : EState :=
  stepSpoof (jsToLower data.sender) (emailState2 data)

/-- The scan state after the `urls.forEach` loop, before the padding guard. -/
def emailPreGuard (data : FormValues) : EState :=
  stepUrls (extractUrls (jsToLower data.content)) (emailState3 data)

/-- The final scan state (after lines 288-290). -/
def emailScanState (data : FormValues) : EState :=
  stepGuard (emailPreGuard data)

/-- user-nav.tsx line 294: the confidence lookup keyed by the final verdict. -/
def confidenceOfRisk : RiskLevel → Nat
  | .phishing => 92
  | .suspicious => 75
  | .safe => 88

/-- user-nav.tsx lines 238-308 (`generateMockAnalysisResult`): the local
heuristic email classifier. -/
def generateMockAnalysisResult (data : FormValues) : AnalysisResult :=
  let s := emailScanState data
  { riskLevel := s.riskLevel
    confidence := confidenceOfRisk s.riskLevel
    indicators := s.indicators
    analysis :=
      if s.riskLevel = .phishing then
        "This email contains multiple elements commonly found in phishing attempts, including urgent language, requests for sensitive information, and suspicious links."
      else if s.riskLevel = .suspicious then
        "This email contains some suspicious elements that warrant caution, but may be legitimate."
      else
        "This email appears to be legitimate with no obvious security concerns detected."
    suspiciousLinks := s.suspiciousLinks
    recommendedAction :=
      if s.riskLevel = .phishing then
        "Block this email and alert the recipient not to interact with it."
      else if s.riskLevel = .suspicious then
        "Review this email carefully before deciding whether to deliver it to the recipient."
      else
        "No action needed, this email can be delivered normally." }

/-- The possible outcomes of the `fetch` to `/api/analyze-email`
(user-nav.tsx lines 195-218): a parsed successful payload, a non-success
HTTP response (line 207), a network error (the `fetch` rejecting), or an
unparseable payload (`response.json()` throwing). -/
inductive FetchOutcome
  | ok (payload : AnalysisResult)
  | httpError (status : Nat) (msg : String)
  | networkError (msg : String)
  | malformedPayload
deriving Repr

/-- Everything except a parsed successful payload throws inside the `try`
block of `analyzeEmail`. -/
def fetchFailed : FetchOutcome → Bool
  | .ok _ => false
  | .httpError _ _ => true
  | .networkError _ => true
  | .malformedPayload => true

/-- user-nav.tsx lines 189-236: `analyzeEmail` sets the external payload on
success; every failure path lands in the catch block, which invokes
`handleApiFailure` and so `generateMockAnalysisResult` on the same form
data.  The result shown to the user is the value this function returns. -/
def analyzeEmailOutcome (data : FormValues) (ext : FetchOutcome) : AnalysisResult :=
  match ext with
  | .ok payload => payload
  | .httpError _ _ => generateMockAnalysisResult data
  | .networkError _ => generateMockAnalysisResult data
  | .malformedPayload => generateMockAnalysisResult data

/-- The email classifier, expressed over the same random environment the URL
checker consumes.  The source of `generateMockAnalysisResult` contains no
call to `Math.random()` (or any other source of nondeterminism), so the
environment is simply never consulted. -/
def generateMockAnalysisResultR (data : FormValues) (_rnd : RandomEnv) : AnalysisResult :=
  generateMockAnalysisResult data

/-! ## Verdict ordering -/

/-- The severity order `safe < suspicious < phishing` on email verdicts. -/
def riskRank : RiskLevel → Nat
  | .safe => 0
  | .suspicious => 1
  | .phishing => 2

/-- The severity order `safe < suspicious < malicious` on URL verdicts. -/
def urlRank : UrlStatus → Nat
  | .safe => 0
  | .suspicious => 1
  | .malicious => 2

/-- The riskLevel trace of the `urls.forEach` loop: the verdict before the
loop and after each iteration. -/
def foldRiskTrace : List String → EState → List RiskLevel
  | [], s => [s.riskLevel]
  | u :: us, s => s.riskLevel :: foldRiskTrace us (stepUrl u s)

/-- The verdicts assigned during one evaluation pass of the email
classifier, in program order: the initial `safe`, the state after the
urgency rule, the sensitive-information rule, the spoofing rule, and each
iteration of the link loop.  (The padding guard at lines 288-290 assigns no
verdict.) -/
def emailRiskTrace (data : FormValues) : List RiskLevel :=
  initState.riskLevel :: (emailState1 data).riskLevel :: (emailState2 data).riskLevel ::
    foldRiskTrace (extractUrls (jsToLower data.content)) (emailState3 data)

/-! ## Helper lemmas -/

/-- When the normalized input parses, `analyzeUrl` reaches the classifier
core on the extracted hostname. -/
theorem analyzeUrl_eq_core (input : String) (rnd : RandomEnv) (host : String)
    (h : parseHostname (normalizeUrl input) = some host) :
    analyzeUrl input rnd = .result (analyzeUrlCore (normalizeUrl input) host rnd) := by
  have hne : input ≠ "" := by
    intro he
    subst he
    rw [show parseHostname (normalizeUrl "") = none from rfl] at h
    exact Option.noConfusion h
  have hv : validateUrl input = true := by
    simp [validateUrl, hne, h]
  simp [analyzeUrl, hv, h]

/-- The allow-list branch of the cascade (providers.tsx lines 174-176). -/
theorem analyzeUrlCore_legit (url host : String) (rnd : RandomEnv)
    (h : isLegitDomain (jsToLower host) = true) :
    (analyzeUrlCore url host rnd).status = .safe ∧
    (analyzeUrlCore url host rnd).confidenceScore = 95 + rnd.jitter.val := by
  simp [analyzeUrlCore, urlCascade, h]

/-- Off the allow-list, a typosquatting hostname lands in one of the two
`malicious` branches (lines 177-184). -/
theorem analyzeUrlCore_typo (url host : String) (rnd : RandomEnv)
    (hL : isLegitDomain (jsToLower host) = false)
    (ht : hasTyposquatting (jsToLower host) = true) :
    (analyzeUrlCore url host rnd).status = .malicious := by
  by_cases hk : isKnownPhishingPattern (jsToLower host) = true
  · simp [analyzeUrlCore, urlCascade, hL, hk]
  · simp [analyzeUrlCore, urlCascade, hL, hk, ht]

/-! ## Claims -/

/-- C1: every input URL whose extracted hostname is exactly an allow-list
domain (google.com, amazon.com, facebook.com, microsoft.com, apple.com,
github.com, dropbox.com) or a subdomain of one of them is classified `safe`;
in particular `classify("google.com")` returns `safe` with confidence at
least 90 (here `95 + jitter ≥ 95`). -/
theorem C1_allowlist_safe :
    (∀ (input host d : String) (rnd : RandomEnv),
        parseHostname (normalizeUrl input) = some host →
        d ∈ knownLegitDomains →
        (jsToLower host = d ∨ jsEndsWith (jsToLower host) ("." ++ d) = true) →
        ∃ res, analyzeUrl input rnd = .result res ∧ res.status = .safe) ∧
    (∀ rnd : RandomEnv, ∃ res, analyzeUrl "google.com" rnd = .result res ∧
        res.status = .safe ∧ 90 ≤ res.confidenceScore) := by
  constructor
  · intro input host d rnd hp hd hmatch
    have hleg : isLegitDomain (jsToLower host) = true := by
      refine List.any_eq_true.mpr ⟨d, hd, ?_⟩
      rcases hmatch with he | hsuf
      · simp [he]
      · simp [hsuf]
    exact ⟨_, analyzeUrl_eq_core input rnd host hp,
      (analyzeUrlCore_legit (normalizeUrl input) host rnd hleg).1⟩
  · intro rnd
    have hp : parseHostname (normalizeUrl "google.com") = some "google.com" := by decide
    have hleg : isLegitDomain (jsToLower "google.com") = true := by decide
    refine ⟨_, analyzeUrl_eq_core "google.com" rnd "google.com" hp,
      (analyzeUrlCore_legit _ _ rnd hleg).1, ?_⟩
    rw [(analyzeUrlCore_legit _ _ rnd hleg).2]
    omega

/-- Witness for C1 at the concrete allow-list input `github.com`. -/
theorem C1_witness :
    ∃ res, analyzeUrl "github.com" ⟨0, false, 0⟩ = .result res ∧ res.status = .safe :=
  C1_allowlist_safe.1 "github.com" "github.com" "github.com" ⟨0, false, 0⟩
    (by decide) (by decide) (Or.inl (by decide))

/-- C2: every input URL whose hostname matches the brand-impersonation
pattern set (the regex at providers.tsx line 160) and is not on the
allow-list is classified `malicious`; in particular `classify("g00gle.com")`
returns `malicious` with an indicator mentioning typosquatting. -/
theorem C2_typosquat_malicious :
    (∀ (input host : String) (rnd : RandomEnv),
        parseHostname (normalizeUrl input) = some host →
        hasTyposquatting (jsToLower host) = true →
        isLegitDomain (jsToLower host) = false →
        ∃ res, analyzeUrl input rnd = .result res ∧ res.status = .malicious) ∧
    (∀ rnd : RandomEnv, ∃ res, analyzeUrl "g00gle.com" rnd = .result res ∧
        res.status = .malicious ∧
        "Potential typosquatting attack (brand impersonation)" ∈
          res.details.maliciousPatterns) := by
  constructor
  · intro input host rnd hp ht hL
    exact ⟨_, analyzeUrl_eq_core input rnd host hp,
      analyzeUrlCore_typo (normalizeUrl input) host rnd hL ht⟩
  · intro rnd
    have hp : parseHostname (normalizeUrl "g00gle.com") = some "g00gle.com" := by decide
    have hL : isLegitDomain (jsToLower "g00gle.com") = false := by decide
    have hk : isKnownPhishingPattern (jsToLower "g00gle.com") = false := by decide
    have ht : hasTyposquatting (jsToLower "g00gle.com") = true := by decide
    refine ⟨_, analyzeUrl_eq_core "g00gle.com" rnd "g00gle.com" hp, ?_, ?_⟩
    · simp [analyzeUrlCore, urlCascade, hL, hk, ht]
    · simp [analyzeUrlCore, urlCascade, hL, hk, ht]

/-- Witness for C2 at the concrete typosquatting input `paypa1.com`. -/
theorem C2_witness :
    ∃ res, analyzeUrl "paypa1.com" ⟨0, false, 0⟩ = .result res ∧ res.status = .malicious :=
  C2_typosquat_malicious.1 "paypa1.com" "paypa1.com" ⟨0, false, 0⟩
    (by decide) (by decide) (by decide)

/-- C4: every URL-mode input that cannot be parsed after the `https://`
prefixing normalization yields the distinct validation-error outcome
(`form.setError`, providers.tsx lines 132-138), never a classification
result, and in particular never a `safe` verdict. -/
theorem C4_invalid_input_validation_error (input : String) (rnd : RandomEnv)
    (h : parseHostname (normalizeUrl input) = none) :
    analyzeUrl input rnd = .validationError ∧
    ∀ r : UrlCheckResult, analyzeUrl input rnd ≠ .result r := by
  have hv : validateUrl input = false := by
    by_cases he : input = ""
    · simp [validateUrl, he]
    · simp [validateUrl, he, h]
  constructor
  · simp [analyzeUrl, hv]
  · intro r
    simp [analyzeUrl, hv]

/-- Witness for C4 at the concrete input `"not a url"`. -/
theorem C4_witness :
    parseHostname (normalizeUrl "not a url") = none ∧
    analyzeUrl "not a url" ⟨0, false, 0⟩ = .validationError :=
  ⟨by decide, (C4_invalid_input_validation_error "not a url" ⟨0, false, 0⟩ (by decide)).1⟩

/-- The six outcomes the cascade can produce. -/
theorem urlCascade_branches (url domain : String) (rnd : RandomEnv) :
    urlCascade url domain rnd = (.safe, 95 + rnd.jitter.val, []) ∨
    urlCascade url domain rnd = (.malicious, 95, ["Known phishing domain pattern"]) ∨
    urlCascade url domain rnd =
      (.malicious, 92, ["Potential typosquatting attack (brand impersonation)"]) ∨
    urlCascade url domain rnd = (.suspicious, 75, ["Suspicious URL path pattern"]) ∨
    urlCascade url domain rnd = (.suspicious, 68, ["Domain contains suspicious keywords"]) ∨
    urlCascade url domain rnd = (.safe, 90, []) := by
  unfold urlCascade
  split
  · exact Or.inl rfl
  split
  · exact Or.inr (Or.inl rfl)
  split
  · exact Or.inr (Or.inr (Or.inl rfl))
  split
  · exact Or.inr (Or.inr (Or.inr (Or.inl rfl)))
  split
  · exact Or.inr (Or.inr (Or.inr (Or.inr (Or.inl rfl))))
  · exact Or.inr (Or.inr (Or.inr (Or.inr (Or.inr rfl))))

/-- A classification result is always the core applied to the parsed
hostname of the normalized input. -/
theorem analyzeUrl_result_inv (input : String) (rnd : RandomEnv) (res : UrlCheckResult)
    (h : analyzeUrl input rnd = .result res) :
    ∃ host, parseHostname (normalizeUrl input) = some host ∧
      res = analyzeUrlCore (normalizeUrl input) host rnd := by
  unfold analyzeUrl at h
  split at h
  · exact absurd h (by simp)
  · split at h
    · rename_i host heq
      exact ⟨host, heq, by injection h with h; rw [h]⟩
    · exact absurd h (by simp)

/-- The padding guard never changes the verdict. -/
theorem stepGuard_riskLevel (s : EState) : (stepGuard s).riskLevel = s.riskLevel := by
  unfold stepGuard
  split <;> rfl

/-- C5: whenever the external analysis request fails in any way (non-success
response, network error, or unparseable payload), the caller falls back to
the local heuristic classifier on the same input, so a verdict is always
produced. -/
theorem C5_external_failure_fallback (data : FormValues) (ext : FetchOutcome)
    (h : fetchFailed ext = true) :
    analyzeEmailOutcome data ext = generateMockAnalysisResult data := by
  cases ext with
  | ok payload => exact absurd h (by simp [fetchFailed])
  | httpError status msg => rfl
  | networkError msg => rfl
  | malformedPayload => rfl

/-- Witness for C5: a network error on a concrete input falls back to the
local classifier. -/
theorem C5_witness :
    fetchFailed (.networkError "fetch failed") = true ∧
    analyzeEmailOutcome ⟨"a@b.com", "hi", "see you tomorrow"⟩ (.networkError "fetch failed") =
      generateMockAnalysisResult ⟨"a@b.com", "hi", "see you tomorrow"⟩ :=
  ⟨rfl, C5_external_failure_fallback ⟨"a@b.com", "hi", "see you tomorrow"⟩
    (.networkError "fetch failed") rfl⟩

/-- C6: a `phishing` email verdict always comes with a non-empty indicators
list — in particular, when the verdict reaches `phishing` with fewer than
two recorded indicators, the generic `Multiple suspicious elements detected`
indicator is appended — and a `malicious` URL verdict always comes with a
non-empty `maliciousPatterns` list. -/
theorem C6_high_severity_explained :
    (∀ data : FormValues,
        ((generateMockAnalysisResult data).riskLevel = .phishing →
          (generateMockAnalysisResult data).indicators ≠ []) ∧
        ((emailPreGuard data).riskLevel = .phishing →
          (emailPreGuard data).indicators.length < 2 →
          (generateMockAnalysisResult data).indicators =
            (emailPreGuard data).indicators ++ ["Multiple suspicious elements detected"])) ∧
    (∀ (input : String) (rnd : RandomEnv) (res : UrlCheckResult),
        analyzeUrl input rnd = .result res → res.status = .malicious →
        res.details.maliciousPatterns ≠ []) := by
  constructor
  · intro data
    constructor
    · intro hph
      have hpre : (emailPreGuard data).riskLevel = .phishing := by
        rw [← stepGuard_riskLevel (emailPreGuard data)]
        exact hph
      show (emailScanState data).indicators ≠ []
      unfold emailScanState stepGuard
      split
      · simp
      · rename_i hc
        have hlen : ¬ (emailPreGuard data).indicators.length < 2 := fun hl => hc ⟨hpre, hl⟩
        intro hnil
        rw [hnil] at hlen
        exact hlen (by simp)
    · intro hph hlen
      show (emailScanState data).indicators = _
      unfold emailScanState stepGuard
      rw [if_pos ⟨hph, hlen⟩]
  · intro input rnd res heq hst
    obtain ⟨host, _, hres⟩ := analyzeUrl_result_inv input rnd res heq
    subst hres
    rcases urlCascade_branches (normalizeUrl input) (jsToLower host) rnd with
      h | h | h | h | h | h <;>
      simp [analyzeUrlCore, h] at hst ⊢

/-- Witness for C6: a spoofed sender reaches `phishing` with one recorded
indicator and gets the generic indicator appended; a known phishing domain
pattern yields `malicious` with a non-empty pattern list. -/
theorem C6_witness :
    (generateMockAnalysisResult ⟨"billing@paypal-help.net", "meeting notes", "see agenda"⟩).indicators ≠ [] ∧
    (analyzeUrlCore "https://secure-verify.com" "secure-verify.com" ⟨0, false, 0⟩).details.maliciousPatterns ≠ [] :=
  ⟨(C6_high_severity_explained.1 ⟨"billing@paypal-help.net", "meeting notes", "see agenda"⟩).1 (by decide),
   C6_high_severity_explained.2 "secure-verify.com" ⟨0, false, 0⟩
     (analyzeUrlCore "https://secure-verify.com" "secure-verify.com" ⟨0, false, 0⟩)
     (by decide) (by decide)⟩

/-- The status of a returned classification result. -/
def outputStatus : UrlCheckOutput → Option UrlStatus
  | .result r => some r.status
  | _ => none

/-- The confidence score of a returned classification result. -/
def outputConfidence : UrlCheckOutput → Option Nat
  | .result r => some r.confidenceScore
  | _ => none

/-- C7 counterexample: `secure-site.xyz` is classified `suspicious` with
confidence 68, outside the claimed 70-80 band for the suspicious tier. -/
theorem C7_counterexample :
    outputStatus (analyzeUrl "secure-site.xyz" ⟨0, false, 0⟩) = some .suspicious ∧
    outputConfidence (analyzeUrl "secure-site.xyz" ⟨0, false, 0⟩) = some 68 ∧
    ¬ (∀ c, outputConfidence (analyzeUrl "secure-site.xyz" ⟨0, false, 0⟩) = some c →
        70 ≤ c ∧ c ≤ 80) := by
  refine ⟨by decide, by decide, fun hall => ?_⟩
  have h := hall 68 (by decide)
  omega

/-- C7 amended: confidence always lies in a fixed band per final verdict
tier — 90-95 for phishing/malicious, 68-80 for suspicious (the hyphen/
keyword rule at providers.tsx line 191 uses 68, below the claimed 70), and
85-99 for safe — and the email-mode confidence is a fixed lookup keyed by
the verdict; URL-mode confidence is a fixed value per decision branch, never
accumulated from indicators. -/
theorem C7_amended_confidence_bands :
    (∀ data : FormValues,
        (generateMockAnalysisResult data).confidence =
          confidenceOfRisk (generateMockAnalysisResult data).riskLevel) ∧
    (∀ (input : String) (rnd : RandomEnv) (res : UrlCheckResult),
        analyzeUrl input rnd = .result res →
        (res.status = .malicious → 90 ≤ res.confidenceScore ∧ res.confidenceScore ≤ 95) ∧
        (res.status = .suspicious → 68 ≤ res.confidenceScore ∧ res.confidenceScore ≤ 80) ∧
        (res.status = .safe → 85 ≤ res.confidenceScore ∧ res.confidenceScore ≤ 99)) := by
  constructor
  · intro data
    rfl
  · intro input rnd res heq
    obtain ⟨host, _, hres⟩ := analyzeUrl_result_inv input rnd res heq
    subst hres
    have hj : rnd.jitter.val < 5 := rnd.jitter.isLt
    rcases urlCascade_branches (normalizeUrl input) (jsToLower host) rnd with
      h | h | h | h | h | h <;>
      refine ⟨?_, ?_, ?_⟩ <;> intro hst <;>
      (simp [analyzeUrlCore, h] at hst ⊢; try omega)

/-- Witness for C7 at concrete inputs: a safe email and a safe URL result,
each inside its band. -/
theorem C7_witness :
    (generateMockAnalysisResult ⟨"a@b.com", "greetings", "nice weather"⟩).confidence =
      confidenceOfRisk (generateMockAnalysisResult ⟨"a@b.com", "greetings", "nice weather"⟩).riskLevel ∧
    (85 ≤ (analyzeUrlCore "https://example.org" "example.org" ⟨0, false, 0⟩).confidenceScore ∧
     (analyzeUrlCore "https://example.org" "example.org" ⟨0, false, 0⟩).confidenceScore ≤ 99) :=
  ⟨C7_amended_confidence_bands.1 ⟨"a@b.com", "greetings", "nice weather"⟩,
   (C7_amended_confidence_bands.2 "example.org" ⟨0, false, 0⟩
     (analyzeUrlCore "https://example.org" "example.org" ⟨0, false, 0⟩)
     (by decide)).2.2 (by decide)⟩

/-! ## Monotonicity of the email evaluation pass -/

theorem riskRank_le_two (r : RiskLevel) : riskRank r ≤ 2 := by
  cases r <;> simp [riskRank]

theorem stepUrgent_riskLevel (subject content : String) (s : EState) :
    (stepUrgent subject content s).riskLevel = s.riskLevel ∨
    (stepUrgent subject content s).riskLevel = .suspicious := by
  unfold stepUrgent
  split
  · right; rfl
  · left; rfl

theorem stepSensitive_riskLevel (content : String) (s : EState) :
    (stepSensitive content s).riskLevel = s.riskLevel ∨
    (stepSensitive content s).riskLevel = .suspicious := by
  unfold stepSensitive
  split
  · right; rfl
  · left; rfl

theorem stepSpoof_riskLevel (sender : String) (s : EState) :
    (stepSpoof sender s).riskLevel = s.riskLevel ∨
    (stepSpoof sender s).riskLevel = .phishing := by
  unfold stepSpoof
  split
  · right; rfl
  · left; rfl

theorem stepUrl_riskLevel (u : String) (s : EState) :
    (stepUrl u s).riskLevel = s.riskLevel ∨ (stepUrl u s).riskLevel = .phishing := by
  unfold stepUrl
  split
  · split
    · right; rfl
    · right; rfl
  · split
    · right; rfl
    · left; rfl

theorem stepSpoof_mono (sender : String) (s : EState) :
    riskRank s.riskLevel ≤ riskRank (stepSpoof sender s).riskLevel := by
  rcases stepSpoof_riskLevel sender s with h | h <;> rw [h]
  exact riskRank_le_two _

theorem stepUrl_mono (u : String) (s : EState) :
    riskRank s.riskLevel ≤ riskRank (stepUrl u s).riskLevel := by
  rcases stepUrl_riskLevel u s with h | h <;> rw [h]
  exact riskRank_le_two _

theorem stepUrls_mono (urls : List String) (s : EState) :
    riskRank s.riskLevel ≤ riskRank (stepUrls urls s).riskLevel := by
  induction urls generalizing s with
  | nil => exact Nat.le_refl _
  | cons u us ih => exact Nat.le_trans (stepUrl_mono u s) (ih (stepUrl u s))

theorem foldRiskTrace_head (urls : List String) (s : EState) :
    (foldRiskTrace urls s).head? = some s.riskLevel := by
  cases urls <;> rfl

theorem foldRiskTrace_chain (urls : List String) (s : EState) :
    List.Chain' (fun a b => riskRank a ≤ riskRank b) (foldRiskTrace urls s) := by
  induction urls generalizing s with
  | nil => simp [foldRiskTrace]
  | cons u us ih =>
    rw [foldRiskTrace, List.chain'_cons']
    refine ⟨fun y hy => ?_, ih (stepUrl u s)⟩
    rw [foldRiskTrace_head] at hy
    cases hy
    exact stepUrl_mono u s

theorem foldRiskTrace_getLast (urls : List String) (s : EState) (d : RiskLevel) :
    (foldRiskTrace urls s).getLastD d = (stepUrls urls s).riskLevel := by
  induction urls generalizing s d with
  | nil => rfl
  | cons u us ih =>
    rw [foldRiskTrace]
    rw [show ∀ (a d : RiskLevel) (l : List RiskLevel), (a :: l).getLastD d = l.getLastD a
      from fun a d l => by cases l <;> simp [List.getLastD]]
    exact ih (stepUrl u s) s.riskLevel

theorem getLastD_cons_risk (a d : RiskLevel) (l : List RiskLevel) :
    (a :: l).getLastD d = l.getLastD a := by
  cases l <;> simp [List.getLastD]

/-- C3: within a single evaluation pass the verdict only moves upward in the
order safe, suspicious, phishing/malicious.  For the email classifier the
verdicts assigned in program order form a monotone chain whose last entry is
the returned verdict (the padding guard assigns no verdict).  For the URL
checker, status is initialized `safe` and assigned at most once by the
if/else-if cascade, so the assigned verdict is never below the `safe` it
replaces. -/
theorem C3_verdict_monotone :
    (∀ data : FormValues,
        List.Chain' (fun a b => riskRank a ≤ riskRank b) (emailRiskTrace data) ∧
        (generateMockAnalysisResult data).riskLevel = (emailRiskTrace data).getLastD .safe) ∧
    (∀ (url host : String) (rnd : RandomEnv),
        urlRank .safe ≤ urlRank (analyzeUrlCore url host rnd).status) := by
  constructor
  · intro data
    have h1 : (emailState1 data).riskLevel = initState.riskLevel ∨
        (emailState1 data).riskLevel = .suspicious := stepUrgent_riskLevel _ _ _
    have h2 : (emailState2 data).riskLevel = (emailState1 data).riskLevel ∨
        (emailState2 data).riskLevel = .suspicious := stepSensitive_riskLevel _ _
    constructor
    · rw [emailRiskTrace, List.chain'_cons']
      refine ⟨fun y _ => ?_, ?_⟩
      · show riskRank initState.riskLevel ≤ riskRank y
        exact Nat.zero_le _
      rw [List.chain'_cons']
      refine ⟨fun y hy => ?_, ?_⟩
      · simp only [List.head?] at hy
        cases hy
        rcases h2 with h | h <;> rcases h1 with h' | h' <;>
          simp [h, h', riskRank, initState]
      rw [List.chain'_cons']
      refine ⟨fun y hy => ?_, foldRiskTrace_chain _ _⟩
      rw [foldRiskTrace_head] at hy
      cases hy
      exact stepSpoof_mono _ _
    · show (emailScanState data).riskLevel = _
      rw [emailScanState, stepGuard_riskLevel, emailRiskTrace,
        getLastD_cons_risk, getLastD_cons_risk, getLastD_cons_risk,
        foldRiskTrace_getLast]
      rfl
  · intro url host rnd
    exact Nat.zero_le _

/-- The input of the C8 scenario. -/
def c8input : FormValues :=
  ⟨"support@paypa1-alerts.com", "Urgent: verify your account",
   "Please login at https://paypa1.com/verify"⟩

/-- C8 counterexample: on the given scenario the classifier does return
`phishing` with a non-empty `suspiciousLinks` list and an urgency indicator,
but it records no sender-spoofing indicator — the spoof rule tests for the
literal substring `paypal`, which `paypa1-alerts` does not contain. -/
theorem C8_counterexample :
    (generateMockAnalysisResult c8input).riskLevel = .phishing ∧
    (generateMockAnalysisResult c8input).indicators =
      ["Uses urgent language to create pressure",
       "Requests sensitive personal information"] ∧
    "Sender domain spoofing detected" ∉ (generateMockAnalysisResult c8input).indicators := by
  refine ⟨by decide, by decide, by decide⟩

/-- C8 amended: the scenario yields verdict `phishing` with two suspicious
links (authentication keywords and typosquatting on the embedded URL) and
with indicators containing an urgency mention and a sensitive-information
mention, but no sender-spoofing mention. -/
theorem C8_amended_scenario :
    generateMockAnalysisResult c8input =
      { riskLevel := .phishing
        confidence := 92
        indicators :=
          ["Uses urgent language to create pressure",
           "Requests sensitive personal information"]
        analysis := "This email contains multiple elements commonly found in phishing attempts, including urgent language, requests for sensitive information, and suspicious links."
        suspiciousLinks :=
          [⟨"https://paypa1.com/verify",
            "URL contains suspicious keywords related to authentication"⟩,
           ⟨"https://paypa1.com/verify",
            "Possible typosquatting detected (domain mimics popular brand)"⟩]
        recommendedAction := "Block this email and alert the recipient not to interact with it." } := by
  set_option maxRecDepth 8192 in decide

/-- C9 counterexample: `password` is a sensitive-data keyword and occurs in
the subject, yet with a clean content the verdict stays `safe` — the
sensitive-keyword scan at user-nav.tsx line 258 reads the content only. -/
theorem C9_counterexample :
    "password" ∈ sensitiveWords ∧
    sIncludes (jsToLower "Your password") "password" = true ∧
    (generateMockAnalysisResult ⟨"a@b.com", "Your password", "hello"⟩).riskLevel = .safe := by
  refine ⟨by decide, by decide, by decide⟩

theorem stepUrgent_fires (subject content : String) (s : EState)
    (h : urgentWords.any (fun w => sIncludes content w || sIncludes subject w) = true) :
    (stepUrgent subject content s).riskLevel = .suspicious := by
  simp [stepUrgent, h]

theorem stepSensitive_fires (content : String) (s : EState)
    (h : sensitiveWords.any (fun w => sIncludes content w) = true) :
    (stepSensitive content s).riskLevel = .suspicious := by
  simp [stepSensitive, h]

/-- Once the scan state is at least `suspicious` after the sensitive rule,
the final verdict cannot be `safe`. -/
theorem final_not_safe_of_state2 (data : FormValues)
    (h : 1 ≤ riskRank (emailState2 data).riskLevel) :
    (generateMockAnalysisResult data).riskLevel ≠ .safe := by
  have h3 : 1 ≤ riskRank (emailState3 data).riskLevel :=
    Nat.le_trans h (stepSpoof_mono _ _)
  have h4 : 1 ≤ riskRank (emailPreGuard data).riskLevel :=
    Nat.le_trans h3 (stepUrls_mono _ _)
  have h5 : (generateMockAnalysisResult data).riskLevel = (emailPreGuard data).riskLevel := by
    show (emailScanState data).riskLevel = _
    rw [emailScanState, stepGuard_riskLevel]
  intro hsafe
  rw [h5] at hsafe
  rw [hsafe] at h4
  exact absurd h4 (by simp [riskRank])

/-- C9 amended: the urgency-keyword scan reads both content and subject, and
a match escalates the verdict to at least `suspicious`; the sensitive-data
scan reads the content only, and a content match likewise escalates — but a
sensitive-data keyword appearing only in the subject does not escalate (see
the counterexample). -/
theorem C9_amended_keyword_escalation (data : FormValues) :
    ((∃ w ∈ urgentWords, sIncludes (jsToLower data.subject) w = true ∨
        sIncludes (jsToLower data.content) w = true) →
      (generateMockAnalysisResult data).riskLevel ≠ .safe) ∧
    ((∃ w ∈ sensitiveWords, sIncludes (jsToLower data.content) w = true) →
      (generateMockAnalysisResult data).riskLevel ≠ .safe) := by
  constructor
  · intro ⟨w, hw, hocc⟩
    have hc : urgentWords.any
        (fun v => sIncludes (jsToLower data.content) v || sIncludes (jsToLower data.subject) v) = true := by
      refine List.any_eq_true.mpr ⟨w, hw, ?_⟩
      rcases hocc with h | h <;> simp [h]
    have h1 : (emailState1 data).riskLevel = .suspicious :=
      stepUrgent_fires _ _ _ hc
    refine final_not_safe_of_state2 data ?_
    show 1 ≤ riskRank (stepSensitive (jsToLower data.content) (emailState1 data)).riskLevel
    rcases stepSensitive_riskLevel (jsToLower data.content) (emailState1 data) with h | h <;>
      simp [h, h1, riskRank]
  · intro ⟨w, hw, hocc⟩
    have hc : sensitiveWords.any (fun v => sIncludes (jsToLower data.content) v) = true :=
      List.any_eq_true.mpr ⟨w, hw, hocc⟩
    refine final_not_safe_of_state2 data ?_
    show 1 ≤ riskRank (stepSensitive (jsToLower data.content) (emailState1 data)).riskLevel
    rw [stepSensitive_fires _ _ hc]
    exact Nat.le_refl 1

/-- Witness for C9 at a concrete input with an urgency keyword only in the
subject. -/
theorem C9_witness :
    (generateMockAnalysisResult
      ⟨"a@b.com", "Urgent notice", "quarterly report attached"⟩).riskLevel ≠ .safe :=
  (C9_amended_keyword_escalation
      ⟨"a@b.com", "Urgent notice", "quarterly report attached"⟩).1
    ⟨"urgent", by decide, Or.inl (by decide)⟩

/-- C10: the local email classifier is deterministic — it never consults the
random environment, so two evaluations on the same (sender, subject,
content) agree in every field — whereas the URL checker genuinely depends on
the `Math.random()` draws: the same input can classify `suspicious` or
`safe` depending on the suspicious-path coin flip. -/
theorem C10_email_deterministic_url_random :
    (∀ (data : FormValues) (r1 r2 : RandomEnv),
        generateMockAnalysisResultR data r1 = generateMockAnalysisResultR data r2) ∧
    (∃ (input : String) (r1 r2 : RandomEnv), analyzeUrl input r1 ≠ analyzeUrl input r2) := by
  refine ⟨fun data r1 r2 => rfl, ⟨"site.com/verify", ⟨0, true, 0⟩, ⟨0, false, 0⟩, by decide⟩⟩

end CyberSentinel
